import Mathlib

/-!
Formal model of `system_monitor.py` (karpizin/sysmonitor).

Python floats are modelled as rationals (`ℚ`); machine ints as `Int`/`Nat`.
Fallible external calls (psutil, the docker client) are modelled as
`Except`-valued inputs.  Python's `collections.deque(maxlen=N)` is modelled
as a list that keeps the last `N` pushed elements.  Python dictionaries with
string keys are modelled as insertion-ordered association lists.
-/

/-- Python `int(x)` applied to a float: truncation toward zero. -/
def pyInt (q : ℚ) : Int := if 0 ≤ q then ⌊q⌋ else ⌈q⌉

/-- Rounding of `q` to the nearest integer, ties to even — the rounding used
by Python `format(x, '.1f')` on the scaled value `10 * x`. -/
def roundHalfEven (q : ℚ) : Int :=
  let f := ⌊q⌋
  let r := q - f
  if r < 1/2 then f
  else if 1/2 < r then f + 1
  else if f % 2 = 0 then f else f + 1

/-- Python `f"{q:.1f}"`: the number printed with exactly one decimal digit. -/
def fmt1 (q : ℚ) : String :=
  let t := roundHalfEven (10 * q)
  if t < 0 then "-" ++ toString (t.natAbs / 10) ++ "." ++ toString (t.natAbs % 10)
  else toString (t.toNat / 10) ++ "." ++ toString (t.toNat % 10)

/-- `s` repeated `n` times (structural helper for `pyRepeat`). -/
def strRepeat (s : String) : Nat → String
  | 0 => ""
  | k + 1 => s ++ strRepeat s k

/-- Python `s * n` on a string: `n` copies of `s`, empty when `n ≤ 0`. -/
def pyRepeat (s : String) (n : Int) : String := strRepeat s n.toNat

/-- Python `f"{s:<w}"`: left-justify `s` in a field of width `w`. -/
def pyLJust (s : String) (w : Nat) : String := s ++ pyRepeat " " ((w : Int) - s.length)

/-- Python `f"{s:>w}"`: right-justify `s` in a field of width `w`. -/
def pyRJust (s : String) (w : Nat) : String := pyRepeat " " ((w : Int) - s.length) ++ s

/-- `_format_bytes` (src/system_monitor.py lines 43-49): repeatedly divide by
1024 across B, KB, MB, GB, TB, printing the first unit where the value drops
below 1024, with one decimal place; PB after five divisions. -/
def format_bytes (b : ℚ) : String :=
  if b < 1024 then fmt1 b ++ "B"
  else if b / 1024 < 1024 then fmt1 (b / 1024) ++ "KB"
  else if b / 1024 ^ 2 < 1024 then fmt1 (b / 1024 ^ 2) ++ "MB"
  else if b / 1024 ^ 3 < 1024 then fmt1 (b / 1024 ^ 3) ++ "GB"
  else if b / 1024 ^ 4 < 1024 then fmt1 (b / 1024 ^ 4) ++ "TB"
  else fmt1 (b / 1024 ^ 5) ++ "PB"

/-- One `append` on a `collections.deque(maxlen=cap)` holding `buf`: the
result keeps the last `cap` elements of `buf ++ [x]`, evicting from the
left when the deque is full. -/
def dequePush (cap : Nat) (buf : List ℚ) (x : ℚ) : List ℚ :=
  let l := buf ++ [x]
  l.drop (l.length - cap)

/-- A whole sequence of deque appends, oldest push first. -/
def pushAll (cap : Nat) (buf : List ℚ) (xs : List ℚ) : List ℚ :=
  xs.foldl (dequePush cap) buf

/-- `create_bar` (lines 235-238): `int(width * percent / 100)` filled cells,
`width - filled` empty cells, then the percent to one decimal place. -/
def create_bar (percent : ℚ) (width : Nat) : String :=
  let filled := pyInt (width * percent / 100)
  "[" ++ pyRepeat "█" filled ++ pyRepeat "░" ((width : Int) - filled) ++ "] " ++ fmt1 percent ++ "%"

/-- Python `l[-width:]`: the last `width` elements, or the whole list when
`width = 0` (since `l[-0:]` is `l[0:]`) or when `width ≥ len(l)`. -/
def pySliceLast (l : List α) (w : Nat) : List α :=
  if w = 0 then l else l.drop (l.length - w)

/-- The eight sparkline glyphs `" ▂▃▄▅▆▇█"` (line 262). -/
def sparkChars : List Char := [' ', '▂', '▃', '▄', '▅', '▆', '▇', '█']

/-- `create_sparkline` (lines 240-264): empty data renders `width` `░`
glyphs; otherwise each sample maps to a level 0..7 — clamped absolute
scaling against `max_value` when given, relative min/max scaling (middle
level 4 for a constant series) when `max_value` is `None` — and the levels
of `data[-width:]` are emitted as glyphs, one glyph per level. -/
def create_sparkline (data : List ℚ) (width : Nat) (max_value : Option ℚ) : String :=
  if data.isEmpty then pyRepeat "░" width
  else
    let normalized : List Int :=
      match max_value with
      | some m => data.map (fun x => pyInt (7 * (max 0 (min x m)) / m))
      | none =>
        let min_val := data.foldl min (data.headD 0)
        let max_val := data.foldl max (data.headD 0)
        if min_val = max_val then data.map (fun _ => 4)
        else data.map (fun x => pyInt (7 * (x - min_val) / (max_val - min_val)))
    String.mk ((pySliceLast normalized width).map (fun n => sparkChars.getD n.toNat ' '))

/-- Python dict assignment `m[k] = v` on a string-keyed dict modelled as an
insertion-ordered association list: overwrite in place if the key exists,
otherwise append. -/
def dictInsert (m : List (String × String)) (k v : String) : List (String × String) :=
  if m.any (fun kv => kv.1 = k) then m.map (fun kv => if kv.1 = k then (k, v) else kv)
  else m ++ [(k, v)]

/-- Python `m.get(k)` / `k in m` lookup on the association-list dict model. -/
def lookupDict (m : List (String × String)) (k : String) : Option String :=
  (m.find? (fun kv => kv.1 = k)).map (fun kv => kv.2)

/-- One record of the published container list (lines 118-126). -/
structure ContainerRec where
  name : String
  status : String
  health : String
  ports : String
  cpu : ℚ
  mem_mb : ℚ
  net_io_str : String
deriving Repr

/-- `self.docker_state` (lines 22-29). -/
structure DockerState where
  containers : List ContainerRec
  container_count : Nat
  space_str : String
  containers_ready : Bool
  space_ready : Bool
  port_map : List (String × String)

/-- The initial `docker_state` built in `__init__` (lines 22-29). -/
def initDockerState : DockerState :=
  { containers := [], container_count := 0, space_str := "Initializing...",
    containers_ready := false, space_ready := false, port_map := [] }

/-- A Python exception, as far as the control flow distinguishes them:
`KeyboardInterrupt` (caught by `main`) versus every other exception. -/
inductive PyExc where
  | keyboardInterrupt
  | other
deriving DecidableEq, Repr

/-- One port mapping dict from `c.ports.values()`; `HostPort` may be absent. -/
structure PortMapping where
  HostPort : Option String

/-- `stats['cpu_stats']['cpu_usage']` / `stats['precpu_stats']['cpu_usage']`. -/
structure CpuUsageStats where
  total_usage : Int

/-- `stats['cpu_stats']` / `stats['precpu_stats']`. -/
structure CpuStats where
  cpu_usage : CpuUsageStats
  system_cpu_usage : Int
  online_cpus : Nat

/-- One entry of `stats['networks']`; `rx_bytes`/`tx_bytes` may be absent
and default to 0 via `net_data.get(..., 0)` (lines 113-114). -/
structure NetIfData where
  rx_bytes : Option Nat
  tx_bytes : Option Nat

/-- The snapshot returned by `c.stats(stream=False)` (line 89), restricted
to the fields the loop reads. -/
structure ContainerStats where
  cpu_stats : CpuStats
  precpu_stats : CpuStats
  memory_usage : Nat
  memory_limit : Nat
  networks : Option (List (String × NetIfData))

/-- One running container as seen by `_loop_containers`: its attributes
(read without failure) and the result of its `stats` call, which is the
fallible step of the per-container body (lines 66-128). -/
structure ContainerInput where
  name : String
  status : String
  health_state : Option String
  ports : List (Option (List PortMapping))
  stats : Except PyExc ContainerStats

/-- The CPU percent computation of lines 92-101: the delta formula when both
deltas are positive, `0.0` otherwise. -/
def containerCpuPercent (cpu_delta system_delta : Int) (number_cpus : Nat) : ℚ :=
  if 0 < system_delta ∧ 0 < cpu_delta then
    ((cpu_delta : ℚ) / (system_delta : ℚ)) * (number_cpus : ℚ) * 100
  else 0

/-- The host ports collected from `c.ports.values()` (lines 75-83): skip
falsy values, keep every mapping that has a `HostPort`. -/
def container_ports (c : ContainerInput) : List String :=
  ((c.ports.filterMap id).flatten).filterMap (fun m => m.HostPort)

/-- `rx_bytes`/`tx_bytes` summed over `stats['networks']` (lines 108-114). -/
def container_net_totals (stats : ContainerStats) : Nat × Nat :=
  match stats.networks with
  | none => (0, 0)
  | some nets =>
    ((nets.map (fun nd => nd.2.rx_bytes.getD 0)).sum,
     (nets.map (fun nd => nd.2.tx_bytes.getD 0)).sum)

/-- The per-container body of `_loop_containers` (lines 66-128): record the
container's host ports into the port map, then — only if the `stats` call
succeeds — append its record to the data list; a failed `stats` call skips
the record but keeps the port-map writes already made. -/
def process_container (acc : List (String × String) × List ContainerRec)
    (c : ContainerInput) : List (String × String) × List ContainerRec :=
  let health := match c.health_state with | some s => s | none => "N/A"
  let ports_list := container_ports c
  let port_map := ports_list.foldl (fun m hp => dictInsert m hp c.name) acc.1
  let ports_str0 := String.intercalate "," (ports_list.take 3)
  let ports_str := if ports_list.length > 3 then ports_str0 ++ "..." else ports_str0
  match c.stats with
  | .error _ => (port_map, acc.2)
  | .ok stats =>
    let cpu_delta := stats.cpu_stats.cpu_usage.total_usage - stats.precpu_stats.cpu_usage.total_usage
    let system_delta := stats.cpu_stats.system_cpu_usage - stats.precpu_stats.system_cpu_usage
    let cpu_percent := containerCpuPercent cpu_delta system_delta stats.cpu_stats.online_cpus
    let mem_mb := (stats.memory_usage : ℚ) / (1024 * 1024)
    let nt := container_net_totals stats
    let net_io_s := format_bytes (nt.1 : ℚ) ++ " / " ++ format_bytes (nt.2 : ℚ)
    (port_map, acc.2 ++ [{ name := c.name, status := c.status, health := health,
                           ports := ports_str, cpu := cpu_percent, mem_mb := mem_mb,
                           net_io_str := net_io_s }])

/-- The four assignments of lines 131-134, as the separate state updates the
interpreter executes: `containers`, `container_count`, `port_map`,
`containers_ready` are each replaced individually, in this order. -/
def publish_container_updates (data_list : List ContainerRec) (count : Nat)
    (port_map : List (String × String)) : List (DockerState → DockerState) :=
  [fun ds => { ds with containers := data_list },
   fun ds => { ds with container_count := count },
   fun ds => { ds with port_map := port_map },
   fun ds => { ds with containers_ready := true }]

/-- Run a prefix of the update sequence: the shared state a concurrent
reader can observe after the writer has executed `k` of the assignments. -/
def apply_updates (us : List (DockerState → DockerState)) (ds : DockerState) : DockerState :=
  us.foldl (fun s u => u s) ds

/-- One full successful iteration of the `while` body of `_loop_containers`
(lines 58-137): list the containers, take `count = len(containers)` before
per-container processing, process each container, publish, and push the
count into the container-count history. -/
def loop_containers_cycle (cs : List ContainerInput) (ds : DockerState)
    (hist : List ℚ) : DockerState × List ℚ :=
  let count := cs.length
  let processed := cs.foldl process_container ([], [])
  (apply_updates (publish_container_updates processed.2 count processed.1) ds,
   dequePush 60 hist (count : ℚ))

/-- One entry of `docker df` `info['Images']` (line 156). -/
structure DfImage where
  Size : Nat

/-- `volume['UsageData']` when present (line 157). -/
structure DfVolumeUsage where
  Size : Nat

/-- One entry of `info['Volumes']`; `UsageData` may be `None` (falsy). -/
structure DfVolume where
  UsageData : Option DfVolumeUsage

/-- One entry of `info['Containers']`; `SizeRw` may be absent (line 158). -/
structure DfContainer where
  SizeRw : Option Nat

/-- The result of `client.df()` (line 155). -/
structure DfInfo where
  Images : List DfImage
  Volumes : List DfVolume
  Containers : List DfContainer

/-- One iteration of the `while` body of `_loop_space` (lines 153-165): on
any failure publish the string `"Error"`; on success publish the summed
image + volume + writable-layer sizes in GB with one decimal place
(volumes with falsy `UsageData` and containers with falsy `SizeRw` are
skipped) and set `space_ready`. -/
def loop_space_cycle (df : Except PyExc DfInfo) (ds : DockerState) : DockerState :=
  match df with
  | .error _ => { ds with space_str := "Error" }
  | .ok info =>
    let total_space := (info.Images.map (fun i => i.Size)).sum
    let volumes_space := ((info.Volumes.filterMap (fun v => v.UsageData)).map (fun u => u.Size)).sum
    let containers_space := ((info.Containers.filterMap (fun c => c.SizeRw)).filter (fun s => s ≠ 0)).sum
    let total_gb : ℚ := ((total_space + volumes_space + containers_space : Nat) : ℚ) / 1024 ^ 3
    { ds with space_str := fmt1 total_gb ++ "GB", space_ready := true }

/-- The four history deques created in `__init__` (lines 16-19), all with
`maxlen = history_length = 60`. -/
structure Histories where
  cpu_history : List ℚ
  memory_history : List ℚ
  disk_usage_history : List ℚ
  docker_containers_history : List ℚ

/-- The empty histories of a fresh `SystemMonitor`. -/
def initHistories : Histories :=
  { cpu_history := [], memory_history := [], disk_usage_history := [],
    docker_containers_history := [] }

/-- Result of `get_memory_usage` (lines 183-194): GB-scaled totals plus the
raw percents. -/
structure MemInfo where
  virt_total : ℚ
  virt_available : ℚ
  virt_percent : ℚ
  swap_total : ℚ
  swap_used : ℚ
  swap_percent : ℚ

/-- The raw values of `psutil.virtual_memory()` / `psutil.swap_memory()`. -/
structure MemoryRaw where
  virt_total : ℚ
  virt_available : ℚ
  virt_percent : ℚ
  swap_total : ℚ
  swap_used : ℚ
  swap_percent : ℚ

/-- Result of `get_disk_space` (lines 199-203), GB-scaled. -/
structure DiskInfo where
  total : ℚ
  free : ℚ
  percent : ℚ

/-- The raw values of `psutil.disk_usage('/')`. -/
structure DiskRaw where
  total : ℚ
  free : ℚ
  percent : ℚ

/-- One entry of `psutil.net_connections(kind='inet')`. -/
structure NetConn where
  status : String
  ip : String
  port : Nat

/-- `get_cpu_usage` (lines 172-175): no exception handling — a provider
failure propagates; on success the percent is pushed into `cpu_history`. -/
def get_cpu_usage (res : Except PyExc ℚ) (h : Histories) : Except PyExc (ℚ × Histories) :=
  match res with
  | .error e => .error e
  | .ok cpu_percent =>
    .ok (cpu_percent, { h with cpu_history := dequePush 60 h.cpu_history cpu_percent })

/-- `get_memory_usage` (lines 177-194): no exception handling — a provider
failure propagates; on success the virtual percent is pushed into
`memory_history` and the GB-scaled info returned. -/
def get_memory_usage (res : Except PyExc MemoryRaw) (h : Histories) :
    Except PyExc (MemInfo × Histories) :=
  match res with
  | .error e => .error e
  | .ok m =>
    .ok ({ virt_total := m.virt_total / 1024 ^ 3, virt_available := m.virt_available / 1024 ^ 3,
           virt_percent := m.virt_percent, swap_total := m.swap_total / 1024 ^ 3,
           swap_used := m.swap_used / 1024 ^ 3, swap_percent := m.swap_percent },
         { h with memory_history := dequePush 60 h.memory_history m.virt_percent })

/-- `get_disk_space` (lines 196-203): no exception handling — a provider
failure propagates; on success the percent is pushed into
`disk_usage_history`. -/
def get_disk_space (res : Except PyExc DiskRaw) (h : Histories) :
    Except PyExc (DiskInfo × Histories) :=
  match res with
  | .error e => .error e
  | .ok d =>
    .ok ({ total := d.total / 1024 ^ 3, free := d.free / 1024 ^ 3, percent := d.percent },
         { h with disk_usage_history := dequePush 60 h.disk_usage_history d.percent })

/-- Insertion of a string into a sorted list (helper for `pySorted`). -/
def insertSorted (x : String) : List String → List String
  | [] => [x]
  | y :: ys => if x ≤ y then x :: y :: ys else y :: insertSorted x ys

/-- Python `sorted` on a list of strings. -/
def pySorted (l : List String) : List String := l.foldr insertSorted []

/-- `get_used_ports` (lines 205-213): the whole enumeration is wrapped in
`try/except: pass`, so a failure mid-enumeration keeps the entries appended
before the exception (the `.error` payload) and the sorted list is returned
either way — enumeration failure never propagates. -/
def get_used_ports (res : Except (PyExc × List NetConn) (List NetConn)) : List String :=
  let conns := match res with | .ok l => l | .error el => el.2
  pySorted ((conns.filter (fun c => c.status = "LISTEN")).map
    (fun c => c.ip ++ ":" ++ toString c.port))

/-- The strings produced by `get_system_info` (lines 215-233) from the
platform module and the boot timestamp; external collaborator data. -/
structure SystemInfoStr where
  os : String
  release : String
  version : String
  machine : String
  uptime : String

/-- Python `p_str.split(':')`: split on every colon, keeping empty parts. -/
def split_on_colon (s : String) : List String :=
  (s.data.foldr
    (fun c acc =>
      if c = ':' then [] :: acc
      else match acc with
           | [] => [[c]]
           | h :: t => (c :: h) :: t)
    [[]]).map (fun l => String.mk l)

/-- The per-port body of the ports section (lines 358-366): extract the text
after the last colon, annotate with the owning container's name when the
port map knows it, and otherwise — including for malformed strings whose
extracted token matches nothing — fall back to the raw string. -/
def annotate_port (port_map : List (String × String)) (p_str : String) : String :=
  let port_num := (split_on_colon p_str).getLastD p_str
  match lookupDict port_map port_num with
  | some nm => p_str ++ " (" ++ nm ++ ")"
  | none => p_str

/-- The ports line of the render (lines 356-371): first 8 annotated ports,
comma-joined, with an "and N more" suffix when truncated. -/
def ports_section_str (raw_ports : List String) (port_map : List (String × String)) : String :=
  let formatted_ports := raw_ports.map (annotate_port port_map)
  let port_s := String.intercalate ", " (formatted_ports.take 8)
  if formatted_ports.length > 8 then
    port_s ++ ", ... and " ++ toString (formatted_ports.length - 8) ++ " more"
  else port_s

/-- One row of the container table (lines 333-344). -/
def container_row (c : ContainerRec) : String :=
  let nm := if c.name.length > 30 then c.name.take 28 ++ ".." else c.name
  pyLJust nm 30 ++ " " ++ pyLJust c.status 10 ++ " " ++ pyLJust c.health 10 ++ " " ++
  pyRJust (fmt1 c.cpu) 5 ++ "% " ++ pyRJust (fmt1 c.mem_mb) 6 ++ "MB " ++
  pyLJust c.net_io_str 18 ++ " " ++ c.ports

/-- The docker section lines (lines 317-348): the loading line while
`containers_ready` is false, otherwise the count, optional trend, and the
container table (first 15 rows, "and N more" if truncated). -/
def docker_section_lines (ds : DockerState) (h : Histories) : List String :=
  if ds.containers_ready = false then ["Loading containers info..."]
  else
    ["Active Containers: " ++ toString ds.container_count] ++
    (if h.docker_containers_history.length > 0 then
       ["Trend: " ++ create_sparkline h.docker_containers_history 40 none]
     else []) ++
    [""] ++
    (if ds.containers.isEmpty then ["No active containers found."]
     else
       [pyLJust "NAME" 30 ++ " " ++ pyLJust "STATUS" 10 ++ " " ++ pyLJust "HEALTH" 10 ++ " " ++
        pyLJust "CPU%" 6 ++ " " ++ pyLJust "MEM" 10 ++ " " ++ pyLJust "NET I/O" 18 ++ " " ++ "PORTS",
        pyRepeat "-" 85] ++
       (ds.containers.take 15).map container_row ++
       (if ds.containers.length > 15 then
          ["... and " ++ toString (ds.containers.length - 15) ++ " more"]
        else []))

/-- The full list of report lines built by `display_metrics` (lines 281-371)
from the gathered host data, the shared docker state, the histories, and the
external system-info/time strings. -/
def display_lines (cpu_percent : ℚ) (mem_info : MemInfo) (disk_info : DiskInfo)
    (raw_ports : List String) (ds : DockerState) (h : Histories)
    (si : SystemInfoStr) (time_str : String) : List String :=
  ["\n" ++ pyRepeat "=" 85,
   "System Monitor - " ++ time_str,
   pyRepeat "=" 85 ++ "\n",
   "SYSTEM INFO:",
   "OS: " ++ si.os ++ " " ++ si.release ++ " (" ++ si.version ++ ")",
   "Architecture: " ++ si.machine,
   "Uptime: " ++ si.uptime ++ "\n",
   "CPU Usage:",
   create_bar cpu_percent 30 ++ "  Trend: " ++ create_sparkline h.cpu_history 20 (some 100),
   "Memory:",
   "Free: " ++ fmt1 mem_info.virt_available ++ "GB / " ++ fmt1 mem_info.virt_total ++ "GB",
   create_bar mem_info.virt_percent 30 ++ "  Trend: " ++
     create_sparkline h.memory_history 20 (some 100) ++ "\n"] ++
  (if 0 < mem_info.swap_total then
     ["Swap:",
      "Used: " ++ fmt1 mem_info.swap_used ++ "GB / " ++ fmt1 mem_info.swap_total ++ "GB",
      create_bar mem_info.swap_percent 30 ++ "\n"]
   else []) ++
  ["Disk Usage:",
   "Free: " ++ fmt1 disk_info.free ++ "GB / " ++ fmt1 disk_info.total ++ "GB",
   create_bar disk_info.percent 30 ++ "  Trend: " ++
     create_sparkline h.disk_usage_history 20 (some 100) ++ "\n",
   pyRepeat "-" 85,
   "DOCKER SYSTEM:",
   "Storage: " ++ ds.space_str] ++
  docker_section_lines ds h ++
  ["",
   pyRepeat "-" 85,
   "Open Ports (" ++ toString raw_ports.length ++ "):",
   ports_section_str raw_ports ds.port_map]

/-- The provider results consumed by one `display_metrics` call: the four
external reads of lines 268-271. -/
structure GatherInputs where
  cpu_res : Except PyExc ℚ
  mem_res : Except PyExc MemoryRaw
  disk_res : Except PyExc DiskRaw
  ports_res : Except (PyExc × List NetConn) (List NetConn)

/-- `display_metrics` (lines 266-375): the three unguarded host reads run in
sequence — any failure aborts the whole call — then the guarded port
enumeration, then the report lines.  Returns the lines and the updated
histories. -/
def display_metrics (g : GatherInputs) (ds : DockerState) (h : Histories)
    (si : SystemInfoStr) (time_str : String) : Except PyExc (List String × Histories) :=
  match get_cpu_usage g.cpu_res h with
  | .error e => .error e
  | .ok cpuh =>
    match get_memory_usage g.mem_res cpuh.2 with
    | .error e => .error e
    | .ok memh =>
      match get_disk_space g.disk_res memh.2 with
      | .error e => .error e
      | .ok diskh =>
        let raw_ports := get_used_ports g.ports_res
        .ok (display_lines cpuh.1 memh.1 diskh.1 raw_ports ds diskh.2 si time_str, diskh.2)

/-- What one pass of the `while True` body in `main` (lines 377-389) leads
to: another iteration, the `KeyboardInterrupt` shutdown path, or — for any
other exception, which `main` does not catch — process termination. -/
inductive ProcessOutcome where
  | running (lines : List String) (h : Histories)
  | cleanShutdown
  | crashed

/-- One pass of `main`'s loop: `display_metrics` runs inside
`try ... except KeyboardInterrupt` only, so a `KeyboardInterrupt` shuts
down cleanly and every other exception escapes and kills the process. -/
def main_iteration (g : GatherInputs) (ds : DockerState) (h : Histories)
    (si : SystemInfoStr) (time_str : String) : ProcessOutcome :=
  match display_metrics g ds h si time_str with
  | .ok r => .running r.1 r.2
  | .error .keyboardInterrupt => .cleanShutdown
  | .error .other => .crashed

/-- Sample healthy memory reading (bytes). -/
def memRawSample : MemoryRaw :=
  { virt_total := 8 * 1024 ^ 3, virt_available := 4 * 1024 ^ 3, virt_percent := 50,
    swap_total := 0, swap_used := 0, swap_percent := 0 }

/-- Sample healthy disk reading (bytes). -/
def diskRawSample : DiskRaw := { total := 100 * 1024 ^ 3, free := 60 * 1024 ^ 3, percent := 40 }

/-- Sample static system info strings. -/
def siSample : SystemInfoStr :=
  { os := "Linux", release := "6.1", version := "v1", machine := "x86_64", uptime := "1d 2h 3m" }

/-- Gather inputs whose CPU read raises a non-KeyboardInterrupt exception. -/
def gatherCpuFail : GatherInputs :=
  { cpu_res := .error .other, mem_res := .ok memRawSample, disk_res := .ok diskRawSample,
    ports_res := .ok [] }

/-- Gather inputs whose socket enumeration fails after one collected entry. -/
def gatherPortsFail : GatherInputs :=
  { cpu_res := .ok (423/10), mem_res := .ok memRawSample, disk_res := .ok diskRawSample,
    ports_res := .error (.other, [{ status := "LISTEN", ip := "127.0.0.1", port := 80 }]) }

/-- Sample GB-scaled memory info for direct `display_lines` calls. -/
def memInfoSample : MemInfo :=
  { virt_total := 8, virt_available := 4, virt_percent := 50,
    swap_total := 0, swap_used := 0, swap_percent := 0 }

/-- Sample GB-scaled disk info for direct `display_lines` calls. -/
def diskInfoSample : DiskInfo := { total := 100, free := 60, percent := 40 }

/-- Cycle-1 container record of the atomicity scenario. -/
def recA : ContainerRec :=
  { name := "alpha", status := "running", health := "N/A", ports := "8080",
    cpu := 0, mem_mb := 0, net_io_str := "0.0B / 0.0B" }

/-- Cycle-2 container record of the atomicity scenario. -/
def recB : ContainerRec :=
  { name := "beta", status := "running", health := "N/A", ports := "9000",
    cpu := 0, mem_mb := 0, net_io_str := "0.0B / 0.0B" }

/-- The four publication assignments of cycle 1. -/
def cycle1Updates : List (DockerState → DockerState) :=
  publish_container_updates [recA] 1 [("8080", "alpha")]

/-- The four publication assignments of cycle 2. -/
def cycle2Updates : List (DockerState → DockerState) :=
  publish_container_updates [recB] 1 [("9000", "beta")]

/-- The shared state once cycle 1 has fully published. -/
def stateAfterCycle1 : DockerState := apply_updates cycle1Updates initDockerState

/-- The shared state a reader observes after cycle 2 has executed only its
first assignment (the container-list write) on top of cycle 1's state. -/
def mixedObservation : DockerState := apply_updates (cycle2Updates.take 1) stateAfterCycle1

/-- Container stats snapshot used by the skipped-container scenario. -/
def statsSample : ContainerStats :=
  { cpu_stats := { cpu_usage := { total_usage := 100 }, system_cpu_usage := 1000, online_cpus := 4 },
    precpu_stats := { cpu_usage := { total_usage := 50 }, system_cpu_usage := 500, online_cpus := 4 },
    memory_usage := 1048576, memory_limit := 2097152, networks := none }

/-- A container whose stats call succeeds, publishing port 8080. -/
def cWeb : ContainerInput :=
  { name := "web", status := "running", health_state := none,
    ports := [some [{ HostPort := some "8080" }]], stats := .ok statsSample }

/-- A container whose stats call fails, after publishing port 9000. -/
def cDb : ContainerInput :=
  { name := "db", status := "running", health_state := none,
    ports := [some [{ HostPort := some "9000" }]], stats := .error .other }

/-- One container-collector cycle over `[cWeb, cDb]` from the fresh state. -/
def cycleResultWebDb : DockerState × List ℚ :=
  loop_containers_cycle [cWeb, cDb] initDockerState []

/-- The `docker df` result of the storage scenario: one 1 GiB image, one
volume with 0.5 GiB of usage data, no container layers. -/
def dfScenario : DfInfo :=
  { Images := [{ Size := 1073741824 }],
    Volumes := [{ UsageData := some { Size := 536870912 } }],
    Containers := [] }

theorem dequePush_length_le (cap : Nat) (buf : List ℚ) (x : ℚ) :
    (dequePush cap buf x).length ≤ cap := by
  simp [dequePush]
  omega

theorem pushAll_eq (cap : Nat) (xs : List ℚ) : ∀ b : List ℚ, b.length ≤ cap →
    pushAll cap b xs = (b ++ xs).drop ((b ++ xs).length - cap) := by
  induction xs with
  | nil =>
    intro b hb
    simp [pushAll, Nat.sub_eq_zero_of_le hb]
  | cons x t ih =>
    intro b hb
    have h1 : (dequePush cap b x).length ≤ cap := dequePush_length_le cap b x
    have h2 := ih (dequePush cap b x) h1
    simp only [pushAll, List.foldl_cons] at h2 ⊢
    rw [h2]
    have hd : dequePush cap b x = (b ++ [x]).drop ((b ++ [x]).length - cap) := rfl
    have hx : b ++ x :: t = (b ++ [x]) ++ t := by simp
    rw [hd, hx]
    generalize b ++ [x] = l
    simp only [List.drop_append_eq_append_drop, List.length_drop,
      List.length_append, List.drop_drop, List.length_cons, List.length_nil]
    congr 1
    · congr 1
      omega
    · congr 1
      omega

theorem strRepeat_length (s : String) (n : Nat) :
    (strRepeat s n).length = n * s.length := by
  induction n with
  | zero => simp [strRepeat]
  | succ k ih =>
    simp [strRepeat, ih]
    ring

theorem pySliceLast_length (l : List α) (w : Nat) (hw : 0 < w) :
    (pySliceLast l w).length = min l.length w := by
  rw [pySliceLast, if_neg (by omega)]
  simp
  omega

/-- C5: for every capacity `N` and every push sequence from the fresh
(empty) buffer, the buffer length never exceeds `N`, it equals
`min (number of pushes) N`, the contents are exactly the most recent
`min (pushes, N)` samples in push order, and a push onto a full buffer
succeeds by evicting the oldest element. -/
theorem historyBuffer_capacity_and_contents (cap : Nat) (xs : List ℚ) :
    (pushAll cap [] xs).length ≤ cap ∧
    (pushAll cap [] xs).length = min xs.length cap ∧
    pushAll cap [] xs = xs.drop (xs.length - cap) ∧
    (∀ b x, b.length = cap → dequePush cap b x = (b ++ [x]).drop 1) := by
  have h := pushAll_eq cap xs [] (by simp)
  simp only [List.nil_append] at h
  refine ⟨?_, ?_, h, ?_⟩
  · rw [h]
    simp
    omega
  · rw [h]
    simp
    omega
  · intro b x hb
    show (b ++ [x]).drop ((b ++ [x]).length - cap) = (b ++ [x]).drop 1
    congr 1
    simp [hb]

theorem historyBuffer_capacity_and_contents_witness :
    dequePush 2 [(5 : ℚ), 6] 7 = [(6 : ℚ), 7] := by
  have h := (historyBuffer_capacity_and_contents 2 []).2.2.2 [(5 : ℚ), 6] 7 (by simp)
  simpa using h

/-- C1 counterexample: one sample at requested width 30 renders a single
glyph, not 30 — `create_sparkline` does not left-pad short inputs. -/
theorem create_sparkline_width_counterexample :
    (create_sparkline [(50 : ℚ)] 30 (some 100)).length ≠ 30 := by
  norm_num [create_sparkline, pySliceLast]

/-- C1 (amended): for empty input `create_sparkline` returns `width` copies
of the `░` glyph; for nonempty input and positive width it returns one glyph
per sample of `data[-width:]`, i.e. exactly `min (len data) width` glyphs,
with no left-padding — so with fewer samples than `width` the output is
shorter than the requested width. -/
theorem create_sparkline_shape (data : List ℚ) (width : Nat) (mv : Option ℚ) :
    (data = [] → create_sparkline data width mv = pyRepeat "░" (width : Int) ∧
                 (create_sparkline data width mv).length = width) ∧
    (data ≠ [] → 0 < width →
      (create_sparkline data width mv).length = min data.length width) := by
  constructor
  · rintro rfl
    refine ⟨rfl, ?_⟩
    have h1 : "░".length = 1 := rfl
    simp [create_sparkline, pyRepeat, strRepeat_length, h1]
  · intro hne hw
    have hE : data.isEmpty = false := by simpa [List.isEmpty_iff] using hne
    have key : ∀ nl : List Int, nl.length = data.length →
        (String.mk ((pySliceLast nl width).map (fun n => sparkChars.getD n.toNat ' '))).length
          = min data.length width := by
      intro nl hl
      simp [String.length, List.length_map, pySliceLast_length nl width hw, hl]
    rw [create_sparkline.eq_def, if_neg (by simp [hE])]
    cases mv with
    | some m => exact key _ (by simp)
    | none =>
      by_cases hc : data.foldl min (data.headD 0) = data.foldl max (data.headD 0)
      · simp only [hc, if_pos rfl]
        exact key _ (by simp)
      · rw [if_neg hc]
        exact key _ (by simp)

theorem create_sparkline_shape_witness :
    (create_sparkline [] 5 (some 100)).length = 5 ∧
    (create_sparkline [(50 : ℚ)] 30 (some 100)).length = 1 := by
  constructor
  · exact ((create_sparkline_shape [] 5 (some 100)).1 rfl).2
  · have h := (create_sparkline_shape [(50 : ℚ)] 30 (some 100)).2 (by simp) (by norm_num)
    simpa using h

/-- C6: the container CPU percent equals
`(cpu_delta / system_delta) * online_cpus * 100` when both deltas are
positive, and is exactly `0.0` whenever `system_delta <= 0` or
`cpu_delta <= 0`, for any input deltas. -/
theorem containerCpuPercent_spec (cpu_delta system_delta : Int) (n : Nat) :
    (0 < system_delta → 0 < cpu_delta →
      containerCpuPercent cpu_delta system_delta n =
        ((cpu_delta : ℚ) / (system_delta : ℚ)) * (n : ℚ) * 100) ∧
    (system_delta ≤ 0 ∨ cpu_delta ≤ 0 →
      containerCpuPercent cpu_delta system_delta n = 0) := by
  constructor
  · intro h1 h2
    rw [containerCpuPercent, if_pos ⟨h1, h2⟩]
  · intro h
    rw [containerCpuPercent, if_neg]
    rintro ⟨a, b⟩
    rcases h with h | h <;> omega

theorem containerCpuPercent_spec_witness :
    containerCpuPercent 5 10 4 = 200 ∧ containerCpuPercent 5 (-1) 4 = 0 := by
  constructor
  · have h := (containerCpuPercent_spec 5 10 4).1 (by norm_num) (by norm_num)
    rw [h]
    norm_num
  · exact (containerCpuPercent_spec 5 (-1) 4).2 (Or.inl (by norm_num))

/-- C7: every storage-collector cycle publishes exactly `"Error"` on any
failure of the disk-usage call, and on success publishes the sum of image
sizes, volume usage sizes (volumes without usage data skipped) and
writable-layer sizes formatted in GB to one decimal place; the staged
scenario — first call fails, second succeeds with images 1073741824,
volumes 536870912, containers 0 — reports `"Error"` then `"1.5GB"`. -/
theorem storage_cycle_reporting (ds : DockerState) (info : DfInfo) (e : PyExc) :
    (loop_space_cycle (.error e) ds).space_str = "Error" ∧
    (loop_space_cycle (.ok info) ds).space_str =
      fmt1 ((((info.Images.map (fun i => i.Size)).sum +
              ((info.Volumes.filterMap (fun v => v.UsageData)).map (fun u => u.Size)).sum +
              ((info.Containers.filterMap (fun c => c.SizeRw)).filter (fun s => s ≠ 0)).sum : Nat) : ℚ)
            / 1024 ^ 3) ++ "GB" ∧
    (loop_space_cycle (.ok dfScenario) (loop_space_cycle (.error e) ds)).space_str = "1.5GB" := by
  refine ⟨rfl, rfl, ?_⟩
  show fmt1 (((1073741824 + 536870912 + 0 : Nat) : ℚ) / 1024 ^ 3) ++ "GB" = "1.5GB"
  norm_num [fmt1, roundHalfEven]
  decide

/-- C8: for percents in the documented [0,100] range and any width,
`create_bar` renders exactly `⌊w * p / 100⌋` filled cells followed by
`w - ⌊w * p / 100⌋` empty cells and the percent to one decimal place; at
`p = 42.3`, `w = 30` the filled count is the floor value 12 (not a
rounding). -/
theorem create_bar_floor (p : ℚ) (w : Nat) (h0 : 0 ≤ p) (h1 : p ≤ 100) :
    create_bar p w =
      "[" ++ pyRepeat "█" ⌊(w : ℚ) * p / 100⌋ ++
      pyRepeat "░" ((w : Int) - ⌊(w : ℚ) * p / 100⌋) ++ "] " ++ fmt1 p ++ "%" ∧
    (pyRepeat "█" ⌊(w : ℚ) * p / 100⌋).length = (⌊(w : ℚ) * p / 100⌋).toNat ∧
    (pyRepeat "░" ((w : Int) - ⌊(w : ℚ) * p / 100⌋)).length = w - (⌊(w : ℚ) * p / 100⌋).toNat ∧
    (⌊(w : ℚ) * p / 100⌋).toNat ≤ w ∧
    (⌊(w : ℚ) * p / 100⌋).toNat + (w - (⌊(w : ℚ) * p / 100⌋).toNat) = w ∧
    create_bar (423/10) 30 = "[████████████░░░░░░░░░░░░░░░░░░] 42.3%" := by
  have hq : (0 : ℚ) ≤ (w : ℚ) * p / 100 := by positivity
  have hfl : ⌊(w : ℚ) * p / 100⌋ ≤ (w : Int) := by
    have hle : (w : ℚ) * p / 100 ≤ (w : ℚ) := by
      have : (w : ℚ) * p ≤ (w : ℚ) * 100 := by
        apply mul_le_mul_of_nonneg_left h1 (by positivity)
      linarith
    calc ⌊(w : ℚ) * p / 100⌋ ≤ ⌊(w : ℚ)⌋ := Int.floor_le_floor hle
      _ = (w : Int) := Int.floor_natCast w
  have hf0 : 0 ≤ ⌊(w : ℚ) * p / 100⌋ := Int.floor_nonneg.mpr hq
  have hone : "█".length = 1 := rfl
  have htwo : "░".length = 1 := rfl
  refine ⟨?_, ?_, ?_, ?_, ?_, ?_⟩
  · simp only [create_bar, pyInt, if_pos hq]
  · simp [pyRepeat, strRepeat_length, hone]
  · simp [pyRepeat, strRepeat_length, htwo]
    omega
  · omega
  · omega
  · show create_bar (423/10) 30 = _
    have h12 : pyInt (30 * (423/10 : ℚ) / 100) = 12 := by
      norm_num [pyInt]
    have hf : fmt1 (423/10) = "42.3" := by
      norm_num [fmt1, roundHalfEven]
      decide
    simp only [create_bar, Nat.cast_ofNat, h12, hf]
    decide

theorem create_bar_floor_witness :
    (0 : ℚ) ≤ 423/10 ∧ create_bar (423/10) 30 = "[████████████░░░░░░░░░░░░░░░░░░] 42.3%" :=
  ⟨by norm_num, (create_bar_floor (423/10) 30 (by norm_num) (by norm_num)).2.2.2.2.2⟩

/-- C9: the render-time port joiner annotates exactly those port strings
whose extracted port number (the text after the last colon) is a key of the
port→container map, appending the owning container's name, and leaves every
other string unchanged; it reproduces the documented example, and a
malformed address string falls back to the raw unannotated string. -/
theorem annotate_port_spec (pm : List (String × String)) (p : String) :
    (∀ nm, lookupDict pm ((split_on_colon p).getLastD p) = some nm →
       annotate_port pm p = p ++ " (" ++ nm ++ ")") ∧
    (lookupDict pm ((split_on_colon p).getLastD p) = none → annotate_port pm p = p) ∧
    ["0.0.0.0:8080", "127.0.0.1:9000"].map (annotate_port [("8080", "web")]) =
      ["0.0.0.0:8080 (web)", "127.0.0.1:9000"] ∧
    annotate_port [("8080", "web")] "garbage" = "garbage" := by
  refine ⟨?_, ?_, by decide, by decide⟩
  · intro nm hl
    show (match lookupDict pm ((split_on_colon p).getLastD p) with
          | some nm2 => p ++ " (" ++ nm2 ++ ")"
          | none => p) = p ++ " (" ++ nm ++ ")"
    rw [hl]
  · intro hl
    show (match lookupDict pm ((split_on_colon p).getLastD p) with
          | some nm2 => p ++ " (" ++ nm2 ++ ")"
          | none => p) = p
    rw [hl]

theorem annotate_port_spec_witness :
    annotate_port [("8080", "web")] "0.0.0.0:8080" = "0.0.0.0:8080 (web)" := by
  have h := (annotate_port_spec [("8080", "web")] "0.0.0.0:8080").1 "web" (by decide)
  exact h.trans (by decide)

/-- C10: a container whose stats call fails mid-cycle is excluded from the
published container list, yet the host ports it published (recorded before
the stats call) remain in the port→container map published that cycle, and
it still counts toward the published container count, which is
`len(containers)` taken before per-container processing — so the count can
exceed the published list's length. -/
theorem failed_stats_container_publication :
    (∀ cs ds hist, (loop_containers_cycle cs ds hist).1.container_count = cs.length) ∧
    cycleResultWebDb.1.containers.map ContainerRec.name = ["web"] ∧
    cycleResultWebDb.1.container_count = 2 ∧
    lookupDict cycleResultWebDb.1.port_map "9000" = some "db" ∧
    lookupDict cycleResultWebDb.1.port_map "8080" = some "web" ∧
    cycleResultWebDb.1.containers.length < cycleResultWebDb.1.container_count := by
  refine ⟨?_, by decide, by decide, by decide, by decide, by decide⟩
  intro cs ds hist
  rfl

/-- C3 counterexample: with cycle 1 fully published, executing only the
first of cycle 2's four assignments leaves an observable state that pairs
cycle 2's container list with cycle 1's port map — a combination belonging
to neither cycle, so the three fields are not replaced as one atomic step. -/
theorem container_publish_torn_read_counterexample :
    mixedObservation.containers = [recB] ∧
    mixedObservation.port_map = [("8080", "alpha")] ∧
    stateAfterCycle1.containers = [recA] ∧
    stateAfterCycle1.port_map = [("8080", "alpha")] ∧
    (apply_updates cycle2Updates stateAfterCycle1).containers = [recB] ∧
    (apply_updates cycle2Updates stateAfterCycle1).port_map = [("9000", "beta")] ∧
    recA.name ≠ recB.name ∧
    (("8080", "alpha") : String × String) ≠ ("9000", "beta") := by
  refine ⟨rfl, rfl, rfl, rfl, rfl, rfl, by decide, by decide⟩

/-- C3 (amended): each of the three container fields is individually
replaced wholesale, and once all four assignments of a cycle have executed
the state carries that cycle's list, count and map together; but the
publication consists of separate sequential assignments, not one atomic
step, so a reader interleaved after the first assignment observes the new
cycle's container list still joined with the previous port map and count. -/
theorem container_publish_per_field (dl : List ContainerRec) (cnt : Nat)
    (pm : List (String × String)) (ds : DockerState) :
    (apply_updates (publish_container_updates dl cnt pm) ds).containers = dl ∧
    (apply_updates (publish_container_updates dl cnt pm) ds).container_count = cnt ∧
    (apply_updates (publish_container_updates dl cnt pm) ds).port_map = pm ∧
    (apply_updates (publish_container_updates dl cnt pm) ds).containers_ready = true ∧
    (apply_updates (publish_container_updates dl cnt pm) ds).space_str = ds.space_str ∧
    (apply_updates ((publish_container_updates dl cnt pm).take 1) ds).containers = dl ∧
    (apply_updates ((publish_container_updates dl cnt pm).take 1) ds).port_map = ds.port_map ∧
    (apply_updates ((publish_container_updates dl cnt pm).take 1) ds).container_count =
      ds.container_count :=
  ⟨rfl, rfl, rfl, rfl, rfl, rfl, rfl, rfl⟩

/-- C2 counterexample: a CPU-read failure during the collection phase of a
render cycle propagates out of `display_metrics`, and since `main` catches
only `KeyboardInterrupt`, the process crashes — a collection error is not
isolated to its metric and does terminate the process without any shutdown
signal. -/
theorem host_cycle_crash_counterexample :
    display_metrics gatherCpuFail initDockerState initHistories siSample "00:00:00" =
      Except.error PyExc.other ∧
    main_iteration gatherCpuFail initDockerState initHistories siSample "00:00:00" =
      ProcessOutcome.crashed :=
  ⟨rfl, rfl⟩

/-- C2 (amended): within a render cycle only the socket enumeration is
guarded — its failure yields the (partial) collected port list and the
cycle continues — while a failure in the CPU, memory, or disk read
propagates out of `display_metrics` unguarded, and any such
non-KeyboardInterrupt error escapes `main`'s handler and terminates the
process. -/
theorem host_metrics_error_isolation (g : GatherInputs) (ds : DockerState) (h : Histories)
    (si : SystemInfoStr) (ts : String) (e : PyExc) :
    (g.cpu_res = .error e → display_metrics g ds h si ts = .error e) ∧
    (∀ c, g.cpu_res = .ok c → g.mem_res = .error e →
       display_metrics g ds h si ts = .error e) ∧
    (∀ c m, g.cpu_res = .ok c → g.mem_res = .ok m → g.disk_res = .error e →
       display_metrics g ds h si ts = .error e) ∧
    (∀ c m d, g.cpu_res = .ok c → g.mem_res = .ok m → g.disk_res = .ok d →
       ∃ out, display_metrics g ds h si ts = Except.ok out) ∧
    (display_metrics g ds h si ts = .error .other →
       main_iteration g ds h si ts = .crashed) ∧
    (∀ pe pre, g.ports_res = .error (pe, pre) →
       get_used_ports g.ports_res =
         pySorted ((pre.filter (fun c => c.status = "LISTEN")).map
           (fun c => c.ip ++ ":" ++ toString c.port))) := by
  refine ⟨?_, ?_, ?_, ?_, ?_, ?_⟩
  · intro hc
    simp [display_metrics, get_cpu_usage, hc]
  · intro c hc hm
    simp [display_metrics, get_cpu_usage, get_memory_usage, hc, hm]
  · intro c m hc hm hd
    simp [display_metrics, get_cpu_usage, get_memory_usage, get_disk_space, hc, hm, hd]
  · intro c m d hc hm hd
    simp only [display_metrics, get_cpu_usage, get_memory_usage, get_disk_space, hc, hm, hd]
    exact ⟨_, rfl⟩
  · intro hcrash
    simp [main_iteration, hcrash]
  · intro pe pre hp
    simp [get_used_ports, hp]

theorem host_metrics_error_isolation_witness :
    ∃ out, display_metrics gatherPortsFail initDockerState initHistories siSample "00:00:00" =
      Except.ok out :=
  (host_metrics_error_isolation gatherPortsFail initDockerState initHistories siSample
    "00:00:00" .other).2.2.2.1 (423/10) memRawSample diskRawSample rfl rfl rfl

/-- C4 counterexample: on the very first render tick of a fresh monitor —
before any host-metrics collection has ever completed — the renderer
already emits the full report (system-info and CPU sections included), not
a minimal "initializing" message: no host-readiness gate exists, and the
only loading gate is the container section's. -/
theorem no_initializing_gate_counterexample :
    "SYSTEM INFO:" ∈ display_lines (423/10) memInfoSample diskInfoSample []
        initDockerState initHistories siSample "00:00:00" ∧
    "CPU Usage:" ∈ display_lines (423/10) memInfoSample diskInfoSample []
        initDockerState initHistories siSample "00:00:00" ∧
    "Loading containers info..." ∈ display_lines (423/10) memInfoSample diskInfoSample []
        initDockerState initHistories siSample "00:00:00" := by
  refine ⟨?_, ?_, ?_⟩ <;>
    simp [display_lines, docker_section_lines, initDockerState, memInfoSample]

/-- C4 (amended): the renderer has no host-readiness flag or gate — host
metrics are gathered synchronously inside each render tick, and whenever
the host reads succeed the full report including the system-info and CPU
sections is emitted unconditionally; the only readiness gate in the
renderer is the container subsystem's `containers_ready`, which while false
replaces the container section with a "Loading containers info..." line,
and which the first successful container-collector cycle sets true. -/
theorem renderer_gating (cpu : ℚ) (mem : MemInfo) (disk : DiskInfo) (ports : List String)
    (ds : DockerState) (h : Histories) (si : SystemInfoStr) (ts : String) :
    "SYSTEM INFO:" ∈ display_lines cpu mem disk ports ds h si ts ∧
    "CPU Usage:" ∈ display_lines cpu mem disk ports ds h si ts ∧
    (ds.containers_ready = false →
      "Loading containers info..." ∈ display_lines cpu mem disk ports ds h si ts) ∧
    (∀ cs ds2 hist, (loop_containers_cycle cs ds2 hist).1.containers_ready = true) := by
  refine ⟨?_, ?_, ?_, fun cs ds2 hist => rfl⟩
  · simp [display_lines]
  · simp [display_lines]
  · intro hready
    simp [display_lines, docker_section_lines, hready]

theorem renderer_gating_witness :
    initDockerState.containers_ready = false ∧
    "Loading containers info..." ∈ display_lines 0 memInfoSample diskInfoSample []
      initDockerState initHistories siSample "t" :=
  ⟨rfl, (renderer_gating 0 memInfoSample diskInfoSample [] initDockerState initHistories
    siSample "t").2.2.1 rfl⟩
